import Mathlib

/-!
Verification development for the SPN core relay fabric
(captain orchestration, navigator matcher, terminal messages, docks).

The definitions below are shallow embeddings of the Go source:
* navigator `Options`, `Options.Copy`, `Options.Matcher`, `endpointListMatch`
* captain `establishHomeHub` (entity construction and the bootstrap-retry loop),
  `connectToHomeHub` (the 3-second auth wait), `optimizeNetwork` (connection loop)
* terminal `Msg.Consume` / `Msg.Pack`
* docks `Crane.establishTerminal` idle-timeout selection

External collaborators (the `endpoints`, `intel` and `hub` packages) are
modelled as records of their observable behaviour, as the spec describes them.
-/

namespace Spn

/-- Result of evaluating an endpoint list against an entity
(the `endpoints.EPResult` enumeration of the collaborator interface). -/
inductive EPResult
  | NoMatch
  | MatchError
  | Denied
  | Permitted
deriving DecidableEq

/-- Modelled from the spec: an `intel.Entity` is a network identity used for
policy matching; only its identity matters to the embedded code. -/
structure Entity where
  ip : Nat
deriving DecidableEq

/-- Modelled from the spec: an endpoint list (`endpoints.Endpoints`) is consumed
through `IsSet`, `Match(entity)` and `MatchMulti(v4, v6)`, each returning a
result and a reason. -/
structure Endpoints where
  IsSet : Bool
  Match : Entity → EPResult × String
  MatchMulti : Option Entity → Option Entity → EPResult × String

/-- Modelled from the spec: `PinState` is a bitset of Hub state flags
(the source applies `Add`, `Remove`, `Has`, `HasAnyOf` and `|=` to it). -/
structure PinState where
  bits : Nat
deriving DecidableEq

/-- Modelled from the spec: bitset union (Go `s | states`). -/
def PinState.Add (s t : PinState) : PinState := ⟨s.bits ||| t.bits⟩

/-- Modelled from the spec: bitset difference (Go `s &^ states`); subtracting
`s.bits &&& t.bits` clears exactly the bits of `t` that are present in `s`. -/
def PinState.Remove (s t : PinState) : PinState :=
  ⟨s.bits - (s.bits &&& t.bits)⟩

/-- Modelled from the spec: all bits of `required` are present. -/
def PinState.Has (s required : PinState) : Bool :=
  s.bits &&& required.bits == required.bits

/-- Modelled from the spec: at least one bit of `check` is present. -/
def PinState.HasAnyOf (s check : PinState) : Bool :=
  s.bits &&& check.bits != 0

/-- Modelled from the spec: the state flags are distinct members of the Pin
state bitset; their concrete bit values are not part of the excerpted source,
so distinct single bits are assigned. -/
def StateReachable : PinState := ⟨1⟩

/-- Modelled from the spec: see `StateReachable`. -/
def StateActive : PinState := ⟨2⟩

/-- Modelled from the spec: see `StateReachable`. -/
def StateTrusted : PinState := ⟨4⟩

/-- Modelled from the spec: see `StateReachable`. -/
def StateConnectivityIssues : PinState := ⟨8⟩

/-- Modelled from the spec: see `StateReachable`. -/
def StateUsageAsHomeDiscouraged : PinState := ⟨16⟩

/-- Modelled from the spec: see `StateReachable`. -/
def StateUsageAsDestinationDiscouraged : PinState := ⟨32⟩

/-- Modelled from the spec: see `StateReachable`. -/
def StateSummaryRegard : PinState := ⟨64⟩

/-- Modelled from the spec: see `StateReachable`. -/
def StateSummaryDisregard : PinState := ⟨128⟩

/-- HubType is the usage type of a Hub in routing (part_002 lines 290-298). -/
inductive HubType
  | HomeHub
  | TransitHub
  | DestinationHub
deriving DecidableEq

/-- Modelled from the spec: the hub announcement consumed via `EntryPolicy()`
and `ExitPolicy()` (the `hub` package is not in the excerpt); modelled as the
parsed endpoint lists those methods return. -/
structure HubInfo where
  EntryPolicy : Endpoints
  ExitPolicy : Endpoints

/-- A Hub as the matcher sees it: its announcement info. -/
structure Hub where
  Info : HubInfo

/-- A Pin as read by the compiled matcher: state bitset, verified owner,
derived entities for policy matching, and the underlying hub. -/
structure Pin where
  State : PinState
  VerifiedOwner : String
  EntityV4 : Option Entity
  EntityV6 : Option Entity
  Hub : Hub

/-- Modelled from the spec: hub intel, consumed through `Parsed()` which yields
the advisory endpoint lists. -/
structure ParsedIntel where
  HubAdvisory : Endpoints
  HomeHubAdvisory : Endpoints
  DestinationHubAdvisory : Endpoints

/-- Modelled from the spec: `hub.Intel` with its `Parsed()` accessor. -/
structure Intel where
  Parsed : Option ParsedIntel

/-- Options holds configuration options for operations with the Map
(part_002 lines 300-336). -/
structure Options where
  Regard : PinState
  Disregard : PinState
  HubPolicies : List Endpoints
  CheckHubEntryPolicyWith : Option Entity
  CheckHubExitPolicyWith : Option Entity
  RequireVerifiedOwners : List String
  NoDefaults : Bool
  RequireTrustedDestinationHubs : Bool
  RoutingProfile : String

/-- Copy returns a shallow copy of the Options (part_002 lines 338-350).
The Go struct literal omits `RequireVerifiedOwners`, so the copy gets the
zero value (nil slice). -/
def Options.Copy (o : Options) : Options :=
  { Regard := o.Regard
    Disregard := o.Disregard
    HubPolicies := o.HubPolicies
    CheckHubEntryPolicyWith := o.CheckHubEntryPolicyWith
    CheckHubExitPolicyWith := o.CheckHubExitPolicyWith
    RequireVerifiedOwners := []
    NoDefaults := o.NoDefaults
    RequireTrustedDestinationHubs := o.RequireTrustedDestinationHubs
    RoutingProfile := o.RoutingProfile }

/-- endpointListMatch (part_002 lines 502-511): `NoMatch` when the list is not
set or the entity is nil, otherwise the result of `list.Match(entity)`. -/
def endpointListMatch (list : Endpoints) (entity : Option Entity) : EPResult :=
  if list.IsSet = false ∨ entity = none then EPResult.NoMatch
  else
    match entity with
    | some e => (list.Match e).1
    | none => EPResult.NoMatch

/-- Outcome of the matcher's policy loop (part_002 lines 459-484):
either some policy explicitly denied the pin, or the loop fell through /
was exited by `Permitted` and the remaining checks run. -/
inductive PolicyOutcome
  | denied
  | passed
deriving DecidableEq

/-- The `policyCheck` loop of the compiled matcher (part_002 lines 459-484):
unset policies are skipped, `NoMatch` continues, `MatchError` is logged and
continues, `Denied` aborts immediately, `Permitted` exits the loop. -/
def policyCheck (entityV4 entityV6 : Option Entity) : List Endpoints → PolicyOutcome
  | [] => PolicyOutcome.passed
  | policy :: rest =>
    if policy.IsSet = false then policyCheck entityV4 entityV6 rest
    else
      match (policy.MatchMulti entityV4 entityV6).1 with
      | EPResult.NoMatch => policyCheck entityV4 entityV6 rest
      | EPResult.MatchError => policyCheck entityV4 entityV6 rest
      | EPResult.Denied => PolicyOutcome.denied
      | EPResult.Permitted => PolicyOutcome.passed

/-- The state the closure returned by `Options.Matcher` captures after the
compilation phase (part_002 lines 382-428). -/
structure CompiledMatcher where
  regard : PinState
  disregard : PinState
  hubPolicies : List Endpoints
  checkHubEntryPolicyWith : Option Entity
  checkHubExitPolicyWith : Option Entity
  requireVerifiedOwners : List String

/-- Compilation phase of `Options.Matcher` (part_002 lines 382-428): default
states per hub type unless `NoDefaults`, the Trusted requirement for
destination hubs, and the intel advisory policies. -/
def Options.compile (o : Options) (hubType : HubType) (hubIntel : Option Intel) :
    CompiledMatcher :=
  let rd1 :=
    if o.NoDefaults then o.Regard
    else
      let r := o.Regard.Add StateSummaryRegard
      match hubType with
      | HubType.HomeHub => (r.Remove StateReachable).Remove StateActive
      | HubType.TransitHub => r
      | HubType.DestinationHub => r
  let dd1 :=
    if o.NoDefaults then o.Disregard
    else
      let d := o.Disregard.Add StateSummaryDisregard
      match hubType with
      | HubType.HomeHub => d.Add StateUsageAsHomeDiscouraged
      | HubType.TransitHub => d
      | HubType.DestinationHub =>
          (d.Add StateUsageAsDestinationDiscouraged).Add StateConnectivityIssues
  let rd2 :=
    if o.RequireTrustedDestinationHubs ∧ hubType = HubType.DestinationHub then
      rd1.Add StateTrusted
    else rd1
  let pols :=
    o.HubPolicies ++
      match hubIntel with
      | none => []
      | some hi =>
        match hi.Parsed with
        | none => []
        | some parsed =>
          match hubType with
          | HubType.HomeHub => [parsed.HubAdvisory, parsed.HomeHubAdvisory]
          | HubType.TransitHub => [parsed.HubAdvisory]
          | HubType.DestinationHub => [parsed.HubAdvisory, parsed.DestinationHubAdvisory]
  { regard := rd2
    disregard := dd1
    hubPolicies := pols
    checkHubEntryPolicyWith := o.CheckHubEntryPolicyWith
    checkHubExitPolicyWith := o.CheckHubExitPolicyWith
    requireVerifiedOwners := o.RequireVerifiedOwners }

/-- Entry-policy probe of the matcher closure (part_002 lines 487-491):
skipped when no entry entity is configured, otherwise the pin is rejected
exactly when the hub's entry policy answers `Denied`. -/
def entryPolicyDenies (m : CompiledMatcher) (pin : Pin) : Bool :=
  match m.checkHubEntryPolicyWith with
  | none => false
  | some e => decide (endpointListMatch pin.Hub.Info.EntryPolicy (some e) = EPResult.Denied)

/-- Exit-policy probe of the matcher closure (part_002 lines 492-496).
NOTE: the source consults `pin.Hub.Info.EntryPolicy()` here — not
`ExitPolicy()` — although the field doc and the in-line comment speak of the
hub's exit policy. The embedding is faithful to the source. -/
def exitPolicyDenies (m : CompiledMatcher) (pin : Pin) : Bool :=
  match m.checkHubExitPolicyWith with
  | none => false
  | some e => decide (endpointListMatch pin.Hub.Info.EntryPolicy (some e) = EPResult.Denied)

/-- The matcher closure body (part_002 lines 430-499): state bitset check,
verified-owner check, policy loop, then the entry/exit probes. -/
def CompiledMatcher.matchPin (m : CompiledMatcher) (pin : Pin) : Bool :=
  if !(pin.State.Has m.regard) || pin.State.HasAnyOf m.disregard then
    false
  else if !m.requireVerifiedOwners.isEmpty && pin.VerifiedOwner == "" then
    false
  else if !m.requireVerifiedOwners.isEmpty
      && !(m.requireVerifiedOwners.contains pin.VerifiedOwner) then
    false
  else
    match policyCheck pin.EntityV4 pin.EntityV6 m.hubPolicies with
    | PolicyOutcome.denied => false
    | PolicyOutcome.passed =>
      if entryPolicyDenies m pin then false
      else if exitPolicyDenies m pin then false
      else true

/-- Matcher generates a PinMatcher based on the Options (part_002 line 382). -/
def Options.Matcher (o : Options) (hubType : HubType) (hubIntel : Option Intel) :
    Pin → Bool :=
  fun pin => (o.compile hubType hubIntel).matchPin pin

/-- An endpoint list that denies every entity. -/
def denyAll : Endpoints :=
  { IsSet := true
    Match := fun _ => (EPResult.Denied, "deny all")
    MatchMulti := fun _ _ => (EPResult.Denied, "deny all") }

/-- An endpoint list that permits every entity. -/
def permitAll : Endpoints :=
  { IsSet := true
    Match := fun _ => (EPResult.Permitted, "permit all")
    MatchMulti := fun _ _ => (EPResult.Permitted, "permit all") }

/-- An unset endpoint list. -/
def emptyPolicy : Endpoints :=
  { IsSet := false
    Match := fun _ => (EPResult.NoMatch, "")
    MatchMulti := fun _ _ => (EPResult.NoMatch, "") }

/-- The exit entity of the C1 scenario. -/
def c1Entity : Entity := ⟨7⟩

/-- Options with only an exit-policy probe configured. -/
def c1Opts : Options :=
  { Regard := ⟨0⟩
    Disregard := ⟨0⟩
    HubPolicies := []
    CheckHubEntryPolicyWith := none
    CheckHubExitPolicyWith := some c1Entity
    RequireVerifiedOwners := []
    NoDefaults := true
    RequireTrustedDestinationHubs := false
    RoutingProfile := "" }

/-- A pin whose hub denies everyone entry but permits everyone exit. -/
def c1Pin : Pin :=
  { State := ⟨0⟩
    VerifiedOwner := ""
    EntityV4 := none
    EntityV6 := none
    Hub := { Info := { EntryPolicy := denyAll, ExitPolicy := permitAll } } }

/-- Claim C1: the spec says the exit probe evaluates the pin's hub's EXIT
policy against the configured entity. The source (part_002 line 493) instead
evaluates the hub's ENTRY policy: at a pin whose entry policy denies the exit
entity while its exit policy permits it, the compiled matcher rejects the pin
even though the exit policy does not answer `Denied`. -/
theorem C1_exit_probe_consults_entry_policy :
    Options.Matcher c1Opts HubType.HomeHub none c1Pin = false ∧
    endpointListMatch c1Pin.Hub.Info.ExitPolicy (some c1Entity) = EPResult.Permitted ∧
    endpointListMatch c1Pin.Hub.Info.EntryPolicy (some c1Entity) = EPResult.Denied := by
  refine ⟨?_, ?_, ?_⟩ <;> rfl

/-- Claim C2: the policy loop evaluates the set hub policies in order:
`Denied` makes the matcher return false immediately, `Permitted` exits the
loop with the policies passed, `NoMatch` continues, and `MatchError` is
treated exactly like `NoMatch`; consequently a matcher whose policies can
only answer `MatchError` behaves as if it had no policies at all, so such
policies never cause a pin to be rejected. -/
theorem C2_policy_loop_semantics :
    (∀ (v4 v6 : Option Entity) (p : Endpoints) (rest : List Endpoints),
        p.IsSet = true → (p.MatchMulti v4 v6).1 = EPResult.Denied →
        policyCheck v4 v6 (p :: rest) = PolicyOutcome.denied) ∧
    (∀ (v4 v6 : Option Entity) (p : Endpoints) (rest : List Endpoints),
        p.IsSet = true → (p.MatchMulti v4 v6).1 = EPResult.Permitted →
        policyCheck v4 v6 (p :: rest) = PolicyOutcome.passed) ∧
    (∀ (v4 v6 : Option Entity) (p : Endpoints) (rest : List Endpoints),
        p.IsSet = true → (p.MatchMulti v4 v6).1 = EPResult.NoMatch →
        policyCheck v4 v6 (p :: rest) = policyCheck v4 v6 rest) ∧
    (∀ (v4 v6 : Option Entity) (p : Endpoints) (rest : List Endpoints),
        p.IsSet = true → (p.MatchMulti v4 v6).1 = EPResult.MatchError →
        policyCheck v4 v6 (p :: rest) = policyCheck v4 v6 rest) ∧
    (∀ (m : CompiledMatcher) (pin : Pin),
        policyCheck pin.EntityV4 pin.EntityV6 m.hubPolicies = PolicyOutcome.denied →
        m.matchPin pin = false) ∧
    (∀ (m : CompiledMatcher) (pin : Pin),
        (∀ p ∈ m.hubPolicies,
            (p.MatchMulti pin.EntityV4 pin.EntityV6).1 = EPResult.MatchError) →
        m.matchPin pin = CompiledMatcher.matchPin { m with hubPolicies := [] } pin) ∧
    (∀ (m : CompiledMatcher) (pin : Pin), entryPolicyDenies m pin = true →
        m.matchPin pin = false) := by
  have herr : ∀ (v4 v6 : Option Entity) (ps : List Endpoints),
      (∀ p ∈ ps, (p.MatchMulti v4 v6).1 = EPResult.MatchError) →
      policyCheck v4 v6 ps = PolicyOutcome.passed := by
    intro v4 v6 ps h
    induction ps with
    | nil => rfl
    | cons p rest ih =>
      have hp := h p (by simp)
      have hrest := ih (fun q hq => h q (by simp [hq]))
      by_cases hset : p.IsSet = false
      · simp [policyCheck, hset, hrest]
      · simp [policyCheck, hset, hp, hrest]
  refine ⟨?_, ?_, ?_, ?_, ?_, ?_, ?_⟩
  · intro v4 v6 p rest hset hres
    simp [policyCheck, hset, hres]
  · intro v4 v6 p rest hset hres
    simp [policyCheck, hset, hres]
  · intro v4 v6 p rest hset hres
    simp [policyCheck, hset, hres]
  · intro v4 v6 p rest hset hres
    simp [policyCheck, hset, hres]
  · intro m pin hden
    unfold CompiledMatcher.matchPin
    split
    · rfl
    · split
      · rfl
      · split
        · rfl
        · rw [hden]
  · intro m pin herrs
    have h1 : policyCheck pin.EntityV4 pin.EntityV6 m.hubPolicies = PolicyOutcome.passed :=
      herr _ _ _ herrs
    simp [CompiledMatcher.matchPin, h1, policyCheck, entryPolicyDenies, exitPolicyDenies]
  · intro m pin hE
    unfold CompiledMatcher.matchPin
    split
    · rfl
    · split
      · rfl
      · split
        · rfl
        · cases hpc : policyCheck pin.EntityV4 pin.EntityV6 m.hubPolicies with
          | denied => rfl
          | passed => simp [hE]

/-- Closed witness for C2: a single set policy that answers `Denied` makes
the loop answer `denied` at once. -/
theorem C2_policy_loop_semantics_witness :
    policyCheck none none [denyAll] = PolicyOutcome.denied :=
  C2_policy_loop_semantics.1 none none denyAll [] rfl rfl

/-- Claim C3: with `NoDefaults` unset, `Matcher` adds `StateSummaryRegard` to
Regard and `StateSummaryDisregard` to Disregard, then per hub type: HomeHub
removes `StateReachable` and `StateActive` from Regard and disregards
`StateUsageAsHomeDiscouraged`; TransitHub adds nothing further;
DestinationHub disregards `StateUsageAsDestinationDiscouraged` and
`StateConnectivityIssues`. With `NoDefaults` set none of these are added
(the Trusted requirement for destination hubs is factored out by
hypothesis, as it is independent of `NoDefaults`). -/
theorem C3_default_states (o : Options) (hi : Option Intel) :
    (o.NoDefaults = false →
      (o.compile HubType.HomeHub hi).regard
          = ((o.Regard.Add StateSummaryRegard).Remove StateReachable).Remove StateActive ∧
      (o.compile HubType.HomeHub hi).disregard
          = (o.Disregard.Add StateSummaryDisregard).Add StateUsageAsHomeDiscouraged ∧
      (o.compile HubType.TransitHub hi).regard = o.Regard.Add StateSummaryRegard ∧
      (o.compile HubType.TransitHub hi).disregard = o.Disregard.Add StateSummaryDisregard ∧
      (o.compile HubType.DestinationHub hi).disregard
          = ((o.Disregard.Add StateSummaryDisregard).Add
              StateUsageAsDestinationDiscouraged).Add StateConnectivityIssues ∧
      (o.RequireTrustedDestinationHubs = false →
        (o.compile HubType.DestinationHub hi).regard = o.Regard.Add StateSummaryRegard)) ∧
    (o.NoDefaults = true →
      (o.compile HubType.HomeHub hi).regard = o.Regard ∧
      (o.compile HubType.HomeHub hi).disregard = o.Disregard ∧
      (o.compile HubType.TransitHub hi).regard = o.Regard ∧
      (o.compile HubType.TransitHub hi).disregard = o.Disregard ∧
      (o.compile HubType.DestinationHub hi).disregard = o.Disregard ∧
      (o.RequireTrustedDestinationHubs = false →
        (o.compile HubType.DestinationHub hi).regard = o.Regard)) := by
  constructor
  · intro hnd
    refine ⟨?_, ?_, ?_, ?_, ?_, fun htr => ?_⟩ <;> simp_all [Options.compile]
  · intro hnd
    refine ⟨?_, ?_, ?_, ?_, ?_, fun htr => ?_⟩ <;> simp_all [Options.compile]

/-- An Options value with defaults enabled, used to exercise C3. -/
def c3Opts : Options :=
  { Regard := StateReachable
    Disregard := ⟨0⟩
    HubPolicies := []
    CheckHubEntryPolicyWith := none
    CheckHubExitPolicyWith := none
    RequireVerifiedOwners := []
    NoDefaults := false
    RequireTrustedDestinationHubs := false
    RoutingProfile := "" }

/-- Closed witness for C3 at a concrete Options value with defaults on. -/
theorem C3_default_states_witness :
    (c3Opts.compile HubType.HomeHub none).regard
      = ((c3Opts.Regard.Add StateSummaryRegard).Remove StateReachable).Remove
          StateActive :=
  ((C3_default_states c3Opts none).1 rfl).1

/-- Claim C9: `Options.Copy` copies Regard, Disregard, HubPolicies, the two
policy-probe entities, NoDefaults, RequireTrustedDestinationHubs and
RoutingProfile, while the copy's RequireVerifiedOwners is empty regardless
of the original — the verified-owner restriction is dropped by copying. -/
theorem C9_copy_drops_verified_owners (o : Options) :
    o.Copy.Regard = o.Regard ∧
    o.Copy.Disregard = o.Disregard ∧
    o.Copy.HubPolicies = o.HubPolicies ∧
    o.Copy.CheckHubEntryPolicyWith = o.CheckHubEntryPolicyWith ∧
    o.Copy.CheckHubExitPolicyWith = o.CheckHubExitPolicyWith ∧
    o.Copy.NoDefaults = o.NoDefaults ∧
    o.Copy.RequireTrustedDestinationHubs = o.RequireTrustedDestinationHubs ∧
    o.Copy.RoutingProfile = o.RoutingProfile ∧
    o.Copy.RequireVerifiedOwners = [] := by
  simp [Options.Copy]

/-- Outcome of one `FindNearestHubs` call as observed by `establishHomeHub`
(part_002 lines 70-87); candidates are abstracted to hub identifiers. -/
inductive FindResult
  | emptyMap
  | otherError
  | found (candidates : List Nat)
deriving DecidableEq

/-- Outcome of one `bootstrapWithUpdates` call. -/
inductive BootstrapResult
  | ok
  | failed
deriving DecidableEq

/-- The environment of the candidate-search loop: the result of the n-th
`FindNearestHubs` call and of the n-th `bootstrapWithUpdates` call. -/
structure SearchOracle where
  find : Nat → FindResult
  boot : Nat → BootstrapResult

/-- Control state of the `findCandidates` goto-loop in `establishHomeHub`
(part_002 lines 70-87), tracking how many find and bootstrap calls have been
made within the one invocation. -/
inductive SearchState
  | searching (findCalls bootCalls : Nat)
  | aborted (bootCalls : Nat)
  | gotCandidates (candidates : List Nat) (bootCalls : Nat)
deriving DecidableEq

/-- One iteration of the `findCandidates` goto-loop (part_002 lines 70-87):
a successful find yields the candidates; `ErrEmptyMap` runs
`bootstrapWithUpdates` and — when the bootstrap succeeds — jumps back to
`findCandidates`; a failing bootstrap or any other find error aborts. -/
def searchStep (oracle : SearchOracle) : SearchState → SearchState
  | SearchState.searching f b =>
    match oracle.find f with
    | FindResult.found cs => SearchState.gotCandidates cs b
    | FindResult.otherError => SearchState.aborted b
    | FindResult.emptyMap =>
      match oracle.boot b with
      | BootstrapResult.ok => SearchState.searching (f + 1) (b + 1)
      | BootstrapResult.failed => SearchState.aborted (b + 1)
  | s => s

/-- An environment in which every `FindNearestHubs` call reports
`ErrEmptyMap` and every bootstrap succeeds. -/
def alwaysEmptyOracle : SearchOracle :=
  { find := fun _ => FindResult.emptyMap
    boot := fun _ => BootstrapResult.ok }

/-- Counterexample to claim C4 as stated: when the first and the second
`FindNearestHubs` call both report `ErrEmptyMap` and bootstraps succeed, the
second `ErrEmptyMap` does trigger a second bootstrap within the same
`establishHomeHub` invocation — after two loop iterations the bootstrap
count is 2, not capped at 1. -/
theorem C4_second_bootstrap_happens :
    searchStep alwaysEmptyOracle (searchStep alwaysEmptyOracle (SearchState.searching 0 0))
      = SearchState.searching 2 2 := rfl

/-- Claim C4, amended: on `ErrEmptyMap`, `bootstrapWithUpdates` is invoked
and the candidate search retried — and this repeats for every further
`ErrEmptyMap`: the goto-loop places no per-invocation cap on bootstraps (a
failing bootstrap aborts instead), so under perpetually-empty results the
loop performs one more bootstrap per iteration, without bound. -/
theorem C4_bootstrap_retry_unbounded :
    (∀ (oracle : SearchOracle) (f b : Nat),
        oracle.find f = FindResult.emptyMap → oracle.boot b = BootstrapResult.ok →
        searchStep oracle (SearchState.searching f b)
          = SearchState.searching (f + 1) (b + 1)) ∧
    (∀ (oracle : SearchOracle) (f b : Nat),
        oracle.find f = FindResult.emptyMap → oracle.boot b = BootstrapResult.failed →
        searchStep oracle (SearchState.searching f b) = SearchState.aborted (b + 1)) ∧
    (∀ n : Nat,
        (searchStep alwaysEmptyOracle)^[n] (SearchState.searching 0 0)
          = SearchState.searching n n) := by
  refine ⟨?_, ?_, ?_⟩
  · intro oracle f b hf hb
    simp [searchStep, hf, hb]
  · intro oracle f b hf hb
    simp [searchStep, hf, hb]
  · intro n
    induction n with
    | zero => rfl
    | succ k ih =>
      rw [Function.iterate_succ_apply', ih]
      rfl

/-- Closed witness for C4's amended statement: the first `ErrEmptyMap`
bootstraps and loops back. -/
theorem C4_bootstrap_retry_unbounded_witness :
    searchStep alwaysEmptyOracle (SearchState.searching 0 0)
      = SearchState.searching 1 1 :=
  C4_bootstrap_retry_unbounded.1 alwaysEmptyOracle 0 0 rfl rfl

/-- Modelled from the spec: terminal errors are first-class values whose code
is their identity; `Is` compares codes. The concrete codes of the sentinels
are not in the excerpt, so distinct values are assigned. -/
structure TermError where
  code : Nat
deriving DecidableEq

/-- Modelled from the spec: the explicit-acknowledgement sentinel. -/
def ErrExplicitAck : TermError := ⟨1⟩

/-- Modelled from the spec: the timeout sentinel. -/
def ErrTimeout : TermError := ⟨2⟩

/-- Modelled from the spec: the shutting-down sentinel. -/
def ErrStopping : TermError := ⟨3⟩

/-- `3 * time.Second` in nanoseconds — the auth-wait deadline of
`connectToHomeHub` (part_002 line 165). -/
def authWaitDeadline : Nat := 3 * 1000000000

/-- Which of the three select cases of the auth wait fires. -/
inductive AuthEvent
  | ended (e : TermError)
  | timerFired
  | ctxDone
deriving DecidableEq

/-- Outcome of the auth wait in `connectToHomeHub` (part_002 lines 160-169). -/
inductive AuthOutcome
  | success
  | authFailed (e : TermError)
  | timedOut
  | stopping
deriving DecidableEq

/-- The case bodies of the auth-wait select (part_002 lines 160-169): an
`Ended` value equal to `ErrExplicitAck` means success, any other `Ended`
value is wrapped as an auth failure, the 3-second timer yields `ErrTimeout`,
and ambient context cancellation yields `ErrStopping`. -/
def authSelectBranch : AuthEvent → AuthOutcome
  | AuthEvent.ended e =>
      if e = ErrExplicitAck then AuthOutcome.success else AuthOutcome.authFailed e
  | AuthEvent.timerFired => AuthOutcome.timedOut
  | AuthEvent.ctxDone => AuthOutcome.stopping

/-- Timing model of the select: the timer fires at `authWaitDeadline`
nanoseconds; `endedAt` and `cancelAt` give the arrival times of the `Ended`
value and of the ambient cancellation, when they occur at all; the earliest
event wins (ties between simultaneously-ready channels are resolved in the
listed order; the claims below only use strict orderings, so the tie
convention carries no weight). -/
def firstAuthEvent (endedAt : Option (Nat × TermError)) (cancelAt : Option Nat) :
    AuthEvent :=
  match endedAt, cancelAt with
  | some (t, e), some c =>
      if t < authWaitDeadline ∧ t ≤ c then AuthEvent.ended e
      else if c < authWaitDeadline then AuthEvent.ctxDone
      else AuthEvent.timerFired
  | some (t, e), none =>
      if t < authWaitDeadline then AuthEvent.ended e else AuthEvent.timerFired
  | none, some c =>
      if c < authWaitDeadline then AuthEvent.ctxDone else AuthEvent.timerFired
  | none, none => AuthEvent.timerFired

/-- The auth wait of `connectToHomeHub` (part_002 lines 155-169) as a
function of the event arrival times. -/
def authWait (endedAt : Option (Nat × TermError)) (cancelAt : Option Nat) :
    AuthOutcome :=
  authSelectBranch (firstAuthEvent endedAt cancelAt)

/-- Claim C5: after `AuthorizeToTerminal` succeeds the caller waits 3 seconds
for `Ended`: an `Ended` value arriving strictly inside the window (also
arbitrarily close to it, e.g. at 2.999 s) yields success when it is
`ErrExplicitAck` and a wrapped auth failure otherwise; if nothing arrives
within 3 seconds the wait ends in `ErrTimeout`; an ambient cancellation
inside the window ends it in `ErrStopping`. -/
theorem C5_auth_wait_semantics (t c : Nat) (e : TermError) :
    (t < authWaitDeadline →
        authWait (some (t, e)) none
          = if e = ErrExplicitAck then AuthOutcome.success else AuthOutcome.authFailed e) ∧
    (t < authWaitDeadline → t ≤ c →
        authWait (some (t, e)) (some c)
          = if e = ErrExplicitAck then AuthOutcome.success else AuthOutcome.authFailed e) ∧
    (authWait none none = AuthOutcome.timedOut) ∧
    (t ≥ authWaitDeadline → authWait (some (t, e)) none = AuthOutcome.timedOut) ∧
    (c < authWaitDeadline → authWait none (some c) = AuthOutcome.stopping) ∧
    authWaitDeadline = 3 * 1000000000 := by
  refine ⟨?_, ?_, rfl, ?_, ?_, rfl⟩
  · intro ht
    simp [authWait, firstAuthEvent, authSelectBranch, ht]
  · intro ht hc
    simp [authWait, firstAuthEvent, authSelectBranch, ht, hc]
  · intro ht
    simp [authWait, firstAuthEvent, authSelectBranch, Nat.not_lt.mpr ht]
  · intro hc
    simp [authWait, firstAuthEvent, authSelectBranch, hc]

/-- Closed witness for C5: an `ErrExplicitAck` arriving at 2.999 s — just
inside the 3-second window — still succeeds. -/
theorem C5_auth_wait_semantics_witness :
    authWait (some (2999000000, ErrExplicitAck)) none = AuthOutcome.success := by
  have h := (C5_auth_wait_semantics 2999000000 0 ErrExplicitAck).1 (by decide)
  simpa using h

/-- One entry of `OptimizationResult.SuggestedConnections`, abstracting the
hub to its identifier. -/
structure SuggestedConnection where
  hubID : Nat
  Duplicate : Bool
deriving DecidableEq

/-- The environment of the optimize connection loop: whether a crane is
already assigned to a hub (`docks.GetAssignedCrane` non-nil) and whether
`EstablishPublicLane` to a hub succeeds. -/
structure CraneOracle where
  assigned : Nat → Bool
  establishOk : Nat → Bool

/-- Externally visible actions the connection loop of `optimizeNetwork`
performs per suggestion (part_002 lines 204-238). -/
inductive OptimizeAction
  | updatedLastSuggestedAt (hubID : Nat)
  | abortStoppingCalled (hubID : Nat)
  | establishedLane (hubID : Nat)
  | failedLane (hubID : Nat)
deriving DecidableEq

/-- Accumulated loop state: the two counters of `optimizeNetwork` and the
trace of performed actions. -/
structure OptimizePassState where
  createdConnections : Nat
  attemptedConnections : Nat
  actions : List OptimizeAction
deriving DecidableEq

/-- The connection loop of `optimizeNetwork` (part_002 lines 204-238):
duplicates are skipped; a suggestion whose hub already has an assigned crane
gets `UpdateLastSuggestedAt` and an `AbortStopping` call; otherwise, while
`createdConnections < MaxConnect`, an `EstablishPublicLane` is attempted,
incrementing the counters as the source does. -/
def optimizeConnLoop (oracle : CraneOracle) (maxConnect : Nat) :
    List SuggestedConnection → OptimizePassState → OptimizePassState
  | [], s => s
  | connectTo :: rest, s =>
    if connectTo.Duplicate then
      optimizeConnLoop oracle maxConnect rest s
    else if oracle.assigned connectTo.hubID then
      optimizeConnLoop oracle maxConnect rest
        { s with
          actions := s.actions ++
            [OptimizeAction.updatedLastSuggestedAt connectTo.hubID,
             OptimizeAction.abortStoppingCalled connectTo.hubID] }
    else if s.createdConnections < maxConnect then
      if oracle.establishOk connectTo.hubID then
        optimizeConnLoop oracle maxConnect rest
          { createdConnections := s.createdConnections + 1
            attemptedConnections := s.attemptedConnections + 1
            actions := s.actions ++
              [OptimizeAction.establishedLane connectTo.hubID,
               OptimizeAction.updatedLastSuggestedAt connectTo.hubID] }
      else
        optimizeConnLoop oracle maxConnect rest
          { s with
            attemptedConnections := s.attemptedConnections + 1
            actions := s.actions ++ [OptimizeAction.failedLane connectTo.hubID] }
    else
      optimizeConnLoop oracle maxConnect rest s

/-- Number of newly established public lanes recorded in an action trace. -/
def countEstablishedLanes (actions : List OptimizeAction) : Nat :=
  actions.countP fun a =>
    match a with
    | OptimizeAction.establishedLane _ => true
    | _ => false

/-- The created-connections counter tracks exactly the established-lane
actions added by the loop. -/
theorem optimizeConnLoop_created_counts (oracle : CraneOracle) (maxConnect : Nat)
    (suggestions : List SuggestedConnection) :
    ∀ s : OptimizePassState,
      (optimizeConnLoop oracle maxConnect suggestions s).createdConnections
          + countEstablishedLanes s.actions
        = s.createdConnections
          + countEstablishedLanes (optimizeConnLoop oracle maxConnect suggestions s).actions := by
  induction suggestions with
  | nil => intro s; rfl
  | cons c rest ih =>
    intro s
    by_cases hdup : c.Duplicate
    · simpa [optimizeConnLoop, hdup] using ih s
    · by_cases hass : oracle.assigned c.hubID
      · have h := ih { s with
          actions := s.actions ++
            [OptimizeAction.updatedLastSuggestedAt c.hubID,
             OptimizeAction.abortStoppingCalled c.hubID] }
        simp [optimizeConnLoop, hdup, hass, countEstablishedLanes,
          List.countP_append] at h ⊢
        omega
      · by_cases hlt : s.createdConnections < maxConnect
        · by_cases hok : oracle.establishOk c.hubID
          · have h := ih ⟨s.createdConnections + 1, s.attemptedConnections + 1,
              s.actions ++
                [OptimizeAction.establishedLane c.hubID,
                 OptimizeAction.updatedLastSuggestedAt c.hubID]⟩
            simp [optimizeConnLoop, hdup, hass, hlt, hok, countEstablishedLanes,
              List.countP_append] at h ⊢
            omega
          · have h := ih { s with
              attemptedConnections := s.attemptedConnections + 1,
              actions := s.actions ++ [OptimizeAction.failedLane c.hubID] }
            simp [optimizeConnLoop, hdup, hass, hlt, hok, countEstablishedLanes,
              List.countP_append] at h ⊢
            omega
        · simpa [optimizeConnLoop, hdup, hass, hlt] using ih s

/-- The created-connections counter never exceeds `MaxConnect` (it only
grows under the guard `createdConnections < MaxConnect`). -/
theorem optimizeConnLoop_created_le (oracle : CraneOracle) (maxConnect : Nat)
    (suggestions : List SuggestedConnection) :
    ∀ s : OptimizePassState,
      s.createdConnections ≤ maxConnect →
      (optimizeConnLoop oracle maxConnect suggestions s).createdConnections ≤ maxConnect := by
  induction suggestions with
  | nil => intro s hs; exact hs
  | cons c rest ih =>
    intro s hs
    by_cases hdup : c.Duplicate
    · simpa [optimizeConnLoop, hdup] using ih s hs
    · by_cases hass : oracle.assigned c.hubID
      · simpa [optimizeConnLoop, hdup, hass] using
          ih { s with
            actions := s.actions ++
              [OptimizeAction.updatedLastSuggestedAt c.hubID,
               OptimizeAction.abortStoppingCalled c.hubID] } hs
      · by_cases hlt : s.createdConnections < maxConnect
        · by_cases hok : oracle.establishOk c.hubID
          · simpa [optimizeConnLoop, hdup, hass, hlt, hok] using
              ih ⟨s.createdConnections + 1, s.attemptedConnections + 1,
                s.actions ++
                  [OptimizeAction.establishedLane c.hubID,
                   OptimizeAction.updatedLastSuggestedAt c.hubID]⟩
                (show s.createdConnections + 1 ≤ maxConnect by omega)
          · simpa [optimizeConnLoop, hdup, hass, hlt, hok] using
              ih { s with
                attemptedConnections := s.attemptedConnections + 1,
                actions := s.actions ++ [OptimizeAction.failedLane c.hubID] } hs
        · simpa [optimizeConnLoop, hdup, hass, hlt] using ih s hs

/-- Claim C6: in every `optimizeNetwork` pass, a suggestion marked
`Duplicate` is skipped entirely (the loop state is untouched); a
non-duplicate suggestion whose hub already has an assigned crane gets its
`LastSuggestedAt` updated and its pending stopping mark cleared via
`AbortStopping`, creating no lane; and the number of newly established
public lanes in a pass never exceeds `MaxConnect`. -/
theorem C6_optimize_pass (oracle : CraneOracle) (maxConnect : Nat) :
    (∀ (c : SuggestedConnection) (rest : List SuggestedConnection)
        (s : OptimizePassState), c.Duplicate = true →
        optimizeConnLoop oracle maxConnect (c :: rest) s
          = optimizeConnLoop oracle maxConnect rest s) ∧
    (∀ (c : SuggestedConnection) (rest : List SuggestedConnection)
        (s : OptimizePassState),
        c.Duplicate = false → oracle.assigned c.hubID = true →
        optimizeConnLoop oracle maxConnect (c :: rest) s
          = optimizeConnLoop oracle maxConnect rest
              { s with
                actions := s.actions ++
                  [OptimizeAction.updatedLastSuggestedAt c.hubID,
                   OptimizeAction.abortStoppingCalled c.hubID] }) ∧
    (∀ suggestions : List SuggestedConnection,
        countEstablishedLanes
            (optimizeConnLoop oracle maxConnect suggestions
              { createdConnections := 0, attemptedConnections := 0, actions := [] }).actions
          ≤ maxConnect) := by
  refine ⟨?_, ?_, ?_⟩
  · intro c rest s hdup
    simp [optimizeConnLoop, hdup]
  · intro c rest s hdup hass
    simp [optimizeConnLoop, hdup, hass]
  · intro suggestions
    have hc := optimizeConnLoop_created_counts oracle maxConnect suggestions
      { createdConnections := 0, attemptedConnections := 0, actions := [] }
    have hl := optimizeConnLoop_created_le oracle maxConnect suggestions
      { createdConnections := 0, attemptedConnections := 0, actions := [] }
      (Nat.zero_le _)
    simp only [countEstablishedLanes, List.countP_nil] at hc ⊢
    omega

/-- The crane environment used by the C6 witness: hub 1 has an assigned
crane, every lane establishment succeeds. -/
def c6Oracle : CraneOracle :=
  { assigned := fun h => h == 1
    establishOk := fun _ => true }

/-- Closed witness for C6: a duplicate-marked suggestion leaves the pass
state untouched. -/
theorem C6_optimize_pass_witness :
    optimizeConnLoop c6Oracle 1 [{ hubID := 5, Duplicate := true }]
        { createdConnections := 0, attemptedConnections := 0, actions := [] }
      = optimizeConnLoop c6Oracle 1 []
          { createdConnections := 0, attemptedConnections := 0, actions := [] } :=
  (C6_optimize_pass c6Oracle 1).1 { hubID := 5, Duplicate := true } []
    { createdConnections := 0, attemptedConnections := 0, actions := [] } rfl

/-- Message types within the SPN network stack (`terminal.MsgType`; the
concrete byte values are not in the excerpt). -/
inductive MsgType
  | Init
  | Data
  | Stop
deriving DecidableEq

/-- Modelled from the spec: the single type byte of the wire frame; concrete
values are unspecified, distinct values are assigned. -/
def msgTypeByte : MsgType → Nat
  | MsgType.Init => 1
  | MsgType.Data => 2
  | MsgType.Stop => 3

/-- Modelled from the spec: the varint length prefix of the wire frame
(little-endian base-128 with a continuation bit). -/
def varint (n : Nat) : List Nat :=
  if h : n < 128 then [n]
  else (n % 128 + 128) :: varint (n / 128)
termination_by n
decreasing_by exact Nat.div_lt_self (by omega) (by omega)

/-- Modelled from the spec: the 4-byte big-endian FlowID field. -/
def be32 (n : Nat) : List Nat :=
  [n / 2 ^ 24 % 256, n / 2 ^ 16 % 256, n / 2 ^ 8 % 256, n % 256]

/-- Modelled from the spec: `MakeMsg` prepends the message header — a varint
length of the fields that follow, the 4-byte big-endian flow ID, and a
single type byte — to the data (the spec's bit-exact wire frame; the
function body is not in the excerpt). -/
def MakeMsg (data : List Nat) (flowID : Nat) (t : MsgType) : List Nat :=
  varint (be32 flowID ++ [msgTypeByte t] ++ data).length
    ++ be32 flowID ++ [msgTypeByte t] ++ data

/-- Msg is a message within the SPN network stack (part_000 lines 13-24):
flow ID, type, data container, and the embedded unit handle — represented
here by its priority bit and the number of `FinishUnit` calls made on it. -/
structure Msg where
  FlowID : Nat
  msgType : MsgType
  Data : List Nat
  unitHighPriority : Bool
  unitFinishCount : Nat
deriving DecidableEq

/-- `IsHighPriorityUnit` of the embedded unit. -/
def Msg.IsHighPriorityUnit (m : Msg) : Bool := m.unitHighPriority

/-- `MakeUnitHighPriority` of the embedded unit. -/
def Msg.MakeUnitHighPriority (m : Msg) : Msg := { m with unitHighPriority := true }

/-- `FinishUnit` signals the unit scheduler that this unit has finished
processing (part_000 lines 83-91); the embedding counts the calls. -/
def Msg.FinishUnit (m : Msg) : Msg := { m with unitFinishCount := m.unitFinishCount + 1 }

/-- Pack prepends the message header to the data (part_000 lines 58-61). -/
def Msg.Pack (m : Msg) : Msg := { m with Data := MakeMsg m.Data m.FlowID m.msgType }

/-- Consume adds another Message to itself (part_000 lines 63-81): pack
`other`, move its data onto `self`, inherit the high-priority mark, then
finish `other`'s unit. Returns the updated pair (self, other). -/
def Msg.Consume (m other : Msg) : Msg × Msg :=
  let packed := other.Pack
  let appended := { m with Data := m.Data ++ packed.Data }
  let prioritized :=
    if packed.IsHighPriorityUnit then appended.MakeUnitHighPriority else appended
  (prioritized, packed.FinishUnit)

/-- Claim C7: `m.Consume(other)` packs `other` (prepending its header) and
appends the packed data to `m`'s data; `m` ends high-priority exactly when
`m` already was or `other` was (OR-distribution of the flag); `other`'s
unit is finished exactly once; and `m`'s own flow ID, type and finish count
are untouched. -/
theorem C7_consume_semantics (m other : Msg) :
    (m.Consume other).1.Data = m.Data ++ MakeMsg other.Data other.FlowID other.msgType ∧
    (m.Consume other).1.unitHighPriority = (m.unitHighPriority || other.unitHighPriority) ∧
    (m.Consume other).2.unitFinishCount = other.unitFinishCount + 1 ∧
    (m.Consume other).2.Data = MakeMsg other.Data other.FlowID other.msgType ∧
    (m.Consume other).1.FlowID = m.FlowID ∧
    (m.Consume other).1.msgType = m.msgType ∧
    (m.Consume other).1.unitFinishCount = m.unitFinishCount := by
  cases hp : other.unitHighPriority <;>
    simp [Msg.Consume, Msg.Pack, Msg.IsHighPriorityUnit, Msg.MakeUnitHighPriority,
      Msg.FinishUnit, hp]

/-- `time.Second` in nanoseconds, Go's duration unit. -/
def second : Nat := 1000000000

/-- `time.Minute` in nanoseconds. -/
def minute : Nat := 60 * second

/-- `defaultTerminalIdleTimeout = 15 * time.Minute`
(crane_establish.go line 13). -/
def defaultTerminalIdleTimeout : Nat := 15 * minute

/-- `remoteTerminalIdleTimeout = 30 * time.Minute`
(crane_establish.go line 14). -/
def remoteTerminalIdleTimeout : Nat := 30 * minute

/-- The idle timeout of a remote crane terminal after
`Crane.establishTerminal` (crane_establish.go lines 42-58): the terminal is
created with the default idle timeout (Modelled from the spec: the
15-minute default applied at terminal construction is outside the
excerpt), then `SetTimeout(remoteTerminalIdleTimeout)` runs exactly when
the crane is public. -/
def establishedTerminalIdleTimeout (cranePublic : Bool) : Nat :=
  if cranePublic then remoteTerminalIdleTimeout else defaultTerminalIdleTimeout

/-- Claim C8: remote terminals established on a public crane idle out after
30 minutes, all others keep the 15-minute default; the two constants are
30 and 15 minutes respectively. -/
theorem C8_idle_timeout_selection :
    establishedTerminalIdleTimeout true = 30 * minute ∧
    establishedTerminalIdleTimeout false = 15 * minute ∧
    remoteTerminalIdleTimeout = 30 * minute ∧
    defaultTerminalIdleTimeout = 15 * minute :=
  ⟨rfl, rfl, rfl, rfl⟩

/-- A device location as consumed by `establishHomeHub`: its IP may be
absent (Go `dl.IP != nil`). -/
structure DeviceLocation where
  IP : Option Nat
deriving DecidableEq

/-- The result of `netenv.GetInternetLocation()`: best v4 and v6 device
locations, either possibly absent (Go `dl != nil`). -/
structure InternetLocations where
  bestV4 : Option DeviceLocation
  bestV6 : Option DeviceLocation
deriving DecidableEq

/-- The Go guard `dl != nil && dl.IP != nil` of part_002 lines 47 and 51. -/
def locIP : Option DeviceLocation → Option Nat
  | none => none
  | some dl => dl.IP

/-- The entity construction of `establishHomeHub` (part_002 lines 43-55):
prefer the best v4 IP, fall back to the best v6 IP, otherwise leave the
entity nil. -/
def myEntityFor (locations : InternetLocations) : Option Entity :=
  match locIP locations.bestV4 with
  | some ip => some ⟨ip⟩
  | none =>
    match locIP locations.bestV6 with
    | some ip => some ⟨ip⟩
    | none => none

/-- The navigation options literal of `establishHomeHub` (part_002 lines
63-67): only `HubPolicies` and `CheckHubEntryPolicyWith` are set, every
other field keeps its zero value. -/
def homeHubOpts (homePolicy : Endpoints) (myEntity : Option Entity) : Options :=
  { Regard := ⟨0⟩
    Disregard := ⟨0⟩
    HubPolicies := [homePolicy]
    CheckHubEntryPolicyWith := myEntity
    CheckHubExitPolicyWith := none
    RequireVerifiedOwners := []
    NoDefaults := false
    RequireTrustedDestinationHubs := false
    RoutingProfile := "" }

/-- Replace only the hub's entry policy of a pin, leaving every other field
of the pin untouched. -/
def setEntryPolicy (pin : Pin) (ep : Endpoints) : Pin :=
  { pin with Hub := { Info := { pin.Hub.Info with EntryPolicy := ep } } }

/-- Claim C10: a compiled matcher whose entry-probe entity is nil performs no
entry-policy probe (the probe passes unconditionally); and in
`establishHomeHub`, when the device location offers neither a v4 nor a v6
IP, the entity stays nil, the options carry no entry-probe entity, and the
resulting home-hub matcher is insensitive to the hubs' entry policies — the
candidate search silently proceeds without entry-policy filtering. -/
theorem C10_nil_entry_entity_no_probe :
    (∀ (m : CompiledMatcher) (pin : Pin),
        m.checkHubEntryPolicyWith = none → entryPolicyDenies m pin = false) ∧
    (∀ l : InternetLocations, locIP l.bestV4 = none → locIP l.bestV6 = none →
        myEntityFor l = none) ∧
    (∀ (l : InternetLocations) (homePolicy : Endpoints),
        locIP l.bestV4 = none → locIP l.bestV6 = none →
        (homeHubOpts homePolicy (myEntityFor l)).CheckHubEntryPolicyWith = none) ∧
    (∀ (l : InternetLocations) (homePolicy : Endpoints) (hi : Option Intel)
        (pin : Pin) (ep : Endpoints),
        locIP l.bestV4 = none → locIP l.bestV6 = none →
        ((homeHubOpts homePolicy (myEntityFor l)).compile HubType.HomeHub hi).matchPin
            (setEntryPolicy pin ep)
          = ((homeHubOpts homePolicy (myEntityFor l)).compile HubType.HomeHub hi).matchPin
              pin) := by
  have hnil : ∀ l : InternetLocations, locIP l.bestV4 = none → locIP l.bestV6 = none →
      myEntityFor l = none := by
    intro l h4 h6
    simp [myEntityFor, h4, h6]
  refine ⟨?_, hnil, ?_, ?_⟩
  · intro m pin hm
    simp [entryPolicyDenies, hm]
  · intro l homePolicy h4 h6
    simp [homeHubOpts, hnil l h4 h6]
  · intro l homePolicy hi pin ep h4 h6
    have he : ((homeHubOpts homePolicy (myEntityFor l)).compile
        HubType.HomeHub hi).checkHubEntryPolicyWith = none := by
      simp [Options.compile, homeHubOpts, hnil l h4 h6]
    have hx : ((homeHubOpts homePolicy (myEntityFor l)).compile
        HubType.HomeHub hi).checkHubExitPolicyWith = none := by
      simp [Options.compile, homeHubOpts]
    simp [CompiledMatcher.matchPin, entryPolicyDenies, exitPolicyDenies, he, hx,
      setEntryPolicy]

/-- A location whose v4 is absent and whose v6 carries no IP. -/
def c10Loc : InternetLocations :=
  { bestV4 := none, bestV6 := some { IP := none } }

/-- Closed witness for C10: with no v4 and an IP-less v6 location the entity
stays nil and the home-hub options carry no entry-probe entity. -/
theorem C10_nil_entry_entity_no_probe_witness :
    myEntityFor c10Loc = none ∧
    (homeHubOpts emptyPolicy (myEntityFor c10Loc)).CheckHubEntryPolicyWith = none :=
  ⟨C10_nil_entry_entity_no_probe.2.1 c10Loc rfl rfl,
   C10_nil_entry_entity_no_probe.2.2.1 c10Loc emptyPolicy rfl rfl⟩

end Spn
